import Mathlib

/-!
Verification development for the multi-chain configuration and chain-registry
layer (packages `evm/config`, `evm`, `evm/types`).

The Go code is shallowly embedded as executable Lean definitions:

* `EvmTypes` embeds the chain-family classification predicates of
  `core/chains/evm/types` (`IsArbitrum`, `IsOptimism`, `IsL2`).
* `EvmConfig` embeds the layered parameter resolver
  (`chainScopedConfig` and its getters, `lookupEnv`, `SetEvmGasPriceDefault`,
  `validate`/`Validate`).  Go `interface{}` values produced by the
  environment parsers are embedded as the inductive `GoVal`, and a Go type
  assertion `v.(T)` as a function into `Except GoPanic _`, so that a failed
  assertion (a Go run-time panic) is observable.
* `EvmChains` embeds the chain registry (`chainCollection`) of
  `core/chains/evm/chain_collection.go`: the `map[string]*chain` index is an
  association list keyed by the decimal string of the chain id, `Get`
  returns an explicit `GetResult` whose `panicNilID` constructor records the
  `panic` the source executes on a nil id.

Errors are embedded as `List String` (the flattened message list of a
`multierr` value); the empty list plays the role of a nil Go error.
-/

namespace EvmTypes

/-- Embeds `IsArbitrum` (evm/types): true iff the chain is Arbitrum mainnet
(42161) or testnet (421611).  The Go `id.Cmp(big.NewInt n) == 0` is integer
equality. -/
def IsArbitrum (id : Int) : Bool :=
  id == 42161 || id == 421611

/-- Embeds `IsOptimism` (evm/types): true iff the chain is Optimism mainnet
(10) or testnet (69). -/
def IsOptimism (id : Int) : Bool :=
  id == 10 || id == 69

/-- Embeds `IsL2` (evm/types): an L2 chain is an Optimism or Arbitrum chain. -/
def IsL2 (id : Int) : Bool :=
  IsOptimism id || IsArbitrum id

end EvmTypes

namespace EvmConfig

/-- A Go `interface{}` value as produced by the environment parse helpers,
tagged with its Go dynamic type. -/
inductive GoVal
  | vUint (n : Nat)
  | vUint16 (n : Nat)
  | vUint32 (n : Nat)
  | vUint64 (n : Nat)
  | vBigInt (i : Int)
  | vBool (b : Bool)
  | vString (s : String)
deriving DecidableEq

/-- A Go run-time panic raised by a failed type assertion
`interface conversion: interface \x7b\x7d is <got>, not <want>`. -/
inductive GoPanic
  | typeAssertion (want got : String)
deriving DecidableEq

/-- Go dynamic type name of an embedded `interface{}` value. -/
def GoVal.goTypeName : GoVal → String
  | .vUint _ => "uint"
  | .vUint16 _ => "uint16"
  | .vUint32 _ => "uint32"
  | .vUint64 _ => "uint64"
  | .vBigInt _ => "*big.Int"
  | .vBool _ => "bool"
  | .vString _ => "string"

/-- Go type assertion `val.(uint)`: succeeds only when the dynamic type is
exactly `uint`; any other dynamic type panics. -/
def GoVal.assertUint : GoVal → Except GoPanic Nat
  | .vUint n => .ok n
  | v => .error (.typeAssertion "uint" v.goTypeName)

/-- Go type assertion `val.(uint16)`. -/
def GoVal.assertUint16 : GoVal → Except GoPanic Nat
  | .vUint16 n => .ok n
  | v => .error (.typeAssertion "uint16" v.goTypeName)

/-- Go type assertion `val.(uint32)`. -/
def GoVal.assertUint32 : GoVal → Except GoPanic Nat
  | .vUint32 n => .ok n
  | v => .error (.typeAssertion "uint32" v.goTypeName)

/-- Go type assertion `val.(uint64)`. -/
def GoVal.assertUint64 : GoVal → Except GoPanic Nat
  | .vUint64 n => .ok n
  | v => .error (.typeAssertion "uint64" v.goTypeName)

/-- Go type assertion `val.(*big.Int)`. -/
def GoVal.assertBigInt : GoVal → Except GoPanic Int
  | .vBigInt i => .ok i
  | v => .error (.typeAssertion "*big.Int" v.goTypeName)

/-- Go type assertion `val.(bool)`. -/
def GoVal.assertBool : GoVal → Except GoPanic Bool
  | .vBool b => .ok b
  | v => .error (.typeAssertion "bool" v.goTypeName)

/-- Go type assertion `val.(string)`. -/
def GoVal.assertString : GoVal → Except GoPanic String
  | .vString s => .ok s
  | v => .error (.typeAssertion "string" v.goTypeName)

/-- Decimal digit accumulator: consumes the remaining characters, failing on
the first non-digit. -/
def decDigits : List Char → Nat → Option Nat
  | [], acc => some acc
  | c :: rest, acc =>
    if c.isDigit then decDigits rest (acc * 10 + (c.toNat - 48)) else none

/-- Parses a non-empty all-digit decimal string. -/
def parseDecNat (s : String) : Option Nat :=
  match s.data with
  | [] => none
  | cs => decDigits cs 0

/-- Parses a decimal integer with an optional leading sign
(`big.Int.SetString(s, 10)` syntax). -/
def parseDecInt (s : String) : Option Int :=
  match s.data with
  | [] => none
  | '-' :: rest =>
    match rest with
    | [] => none
    | cs => (decDigits cs 0).map (fun n => -(n : Int))
  | '+' :: rest =>
    match rest with
    | [] => none
    | cs => (decDigits cs 0).map (fun n => (n : Int))
  | cs => (decDigits cs 0).map (fun n => (n : Int))

/-- Modelled from the spec: `config.ParseUint64` (package
`core/store/config`, not under `src/`) parses a decimal unsigned 64-bit
integer from the environment, yielding a value of Go dynamic type `uint64`.
The dynamic type is pinned by the source itself: `EvmHeadTrackerMaxBufferSize`
asserts this parser's result with `uint(val.(uint64))`. -/
def ParseUint64 (s : String) : Except String GoVal :=
  match parseDecNat s with
  | some n => if n < 2 ^ 64 then .ok (.vUint64 n) else .error "value out of range"
  | none => .error "invalid syntax"

/-- Modelled from the spec: `config.ParseUint32`, yielding Go dynamic type
`uint32`. -/
def ParseUint32 (s : String) : Except String GoVal :=
  match parseDecNat s with
  | some n => if n < 2 ^ 32 then .ok (.vUint32 n) else .error "value out of range"
  | none => .error "invalid syntax"

/-- Modelled from the spec: `config.ParseUint16`, yielding Go dynamic type
`uint16`. -/
def ParseUint16 (s : String) : Except String GoVal :=
  match parseDecNat s with
  | some n => if n < 2 ^ 16 then .ok (.vUint16 n) else .error "value out of range"
  | none => .error "invalid syntax"

/-- Modelled from the spec: `config.ParseBigInt` parses an
arbitrary-precision decimal integer (`big.Int.SetString(s, 10)`), yielding Go
dynamic type `*big.Int`. -/
def ParseBigInt (s : String) : Except String GoVal :=
  match parseDecInt s with
  | some i => .ok (.vBigInt i)
  | none => .error "invalid syntax"

/-- Modelled from the spec: `config.ParseBool` accepts the Go
`strconv.ParseBool` forms, yielding Go dynamic type `bool`. -/
def ParseBool (s : String) : Except String GoVal :=
  match s with
  | "1" | "t" | "T" | "true" | "TRUE" | "True" => .ok (.vBool true)
  | "0" | "f" | "F" | "false" | "FALSE" | "False" => .ok (.vBool false)
  | _ => .error "invalid syntax"

/-- Modelled from the spec: `config.ParseString` accepts any string. -/
def ParseString (s : String) : Except String GoVal :=
  .ok (.vString s)

/-- The process environment visible through `os.LookupEnv`: raw string value
per variable name, `none` when the variable is absent. -/
def RawEnv : Type := String → Option String

/-- The environment with variable `k` removed. -/
def eraseEnv (env : RawEnv) (k : String) : RawEnv :=
  fun x => if x == k then none else env x

/-- Embeds `lookupEnv` (chain-scoped config): looks the key up in the
environment; a present value is parsed, and a parse failure is logged and
reported exactly like an absent variable (`nil, false`). -/
def lookupEnv (env : RawEnv) (k : String) (p : String → Except String GoVal) :
    Option GoVal :=
  match env k with
  | none => none
  | some s =>
    match p s with
    | .error _ => none
    | .ok v => some v

/-- Go conversion `uintN(i)` of a signed `int64` field: reduce modulo `2^w`. -/
def uintN (w : Nat) (i : Int) : Nat :=
  (i % (2 ^ w : Nat)).toNat

/-- The persisted per-chain override record `evmtypes.ChainCfg` (its
definition lives outside `src/`; the fields and their nullability are taken
from their uses in the chain-scoped config, and spec §3: every overridable
field is tri-state, `none` meaning unset).  Only the fields the embedded
getters consult are carried. -/
structure ChainCfg where
  EvmGasPriceDefault : Option Int := none
  EvmMaxGasPriceWei : Option Int := none
  EvmFinalityDepth : Option Int := none
  EvmHeadTrackerHistoryDepth : Option Int := none
  GasEstimatorMode : Option String := none
  EvmGasBumpPercent : Option Int := none
  EvmGasBumpTxDepth : Option Int := none
  BlockHistoryEstimatorBlockHistorySize : Option Int := none
deriving DecidableEq

/-- Modelled from the spec: one chain-specific default parameter set
(`chainSpecificConfigDefaultSet`; the default-set table is not under `src/`).
Spec §3: an immutable record with a concrete baseline value for every
parameter; the concrete numbers are irrelevant to the claims, so the fields
are carried abstractly.  Only the fields the embedded getters consult are
included. -/
structure DefaultSet where
  gasPriceDefault : Int
  minGasPriceWei : Int
  maxGasPriceWei : Int
  finalityDepth : Nat
  headTrackerHistoryDepth : Nat
  gasEstimatorMode : String
  balanceMonitorEnabled : Bool
  gasBumpPercent : Nat
  gasBumpTxDepth : Nat
  maxInFlightTransactions : Nat
  blockHistoryEstimatorBlockHistorySize : Nat
  minIncomingConfirmations : Nat
deriving DecidableEq

/-- Modelled from the spec: the slice of `config.GeneralConfig` (package
`core/store/config`, not under `src/`) that the chain-scoped config
consults — the global chain-connectivity-disabled flag, the default chain
id, and the violation list produced by `GeneralConfig.Validate()`
(spec §2, §4.4: global configuration supplies process-wide parameters;
spec §4.1: `Validate()` merges the general config check). -/
structure GeneralConfig where
  ethereumDisabled : Bool
  defaultChainID : Option Int
  validationErrors : List String
deriving DecidableEq

/-- Embeds the state of `chainScopedConfig`: the general config, the
persisted override record, and the selected default set.
`ocrSanityErrors` is modelled from the spec: the violation list returned by
the delegated `ocr.SanityCheckLocalConfig` on the embedded consensus-timing
block (an external collaborator, spec §3 invariant 8). -/
structure ChainScopedConfig where
  general : GeneralConfig
  persistedCfg : ChainCfg
  defaultSet : DefaultSet
  ocrSanityErrors : List String
deriving DecidableEq

/-- Embeds `EvmGasBumpPercent`: env (`ETH_GAS_BUMP_PERCENT`, uint16), then
persisted override, then default set. -/
def EvmGasBumpPercent (env : RawEnv) (c : ChainScopedConfig) : Except GoPanic Nat :=
  match lookupEnv env "ETH_GAS_BUMP_PERCENT" ParseUint16 with
  | some val => val.assertUint16
  | none =>
    match c.persistedCfg.EvmGasBumpPercent with
    | some i => .ok (uintN 16 i)
    | none => .ok c.defaultSet.gasBumpPercent

/-- Embeds `EvmGasBumpTxDepth`: env (`ETH_GAS_BUMP_TX_DEPTH`, uint16), then
persisted override, then default set. -/
def EvmGasBumpTxDepth (env : RawEnv) (c : ChainScopedConfig) : Except GoPanic Nat :=
  match lookupEnv env "ETH_GAS_BUMP_TX_DEPTH" ParseUint16 with
  | some val => val.assertUint16
  | none =>
    match c.persistedCfg.EvmGasBumpTxDepth with
    | some i => .ok (uintN 16 i)
    | none => .ok c.defaultSet.gasBumpTxDepth

/-- Embeds `EvmMaxInFlightTransactions`: env
(`ETH_MAX_IN_FLIGHT_TRANSACTIONS`, uint32), then default set (the source has
no persisted branch for this parameter). -/
def EvmMaxInFlightTransactions (env : RawEnv) (c : ChainScopedConfig) :
    Except GoPanic Nat :=
  match lookupEnv env "ETH_MAX_IN_FLIGHT_TRANSACTIONS" ParseUint32 with
  | some val => val.assertUint32
  | none => .ok c.defaultSet.maxInFlightTransactions

/-- Embeds `EvmMinGasPriceWei`: env (`ETH_MIN_GAS_PRICE_WEI`, big int), then
default set (no persisted branch in the source). -/
def EvmMinGasPriceWei (env : RawEnv) (c : ChainScopedConfig) : Except GoPanic Int :=
  match lookupEnv env "ETH_MIN_GAS_PRICE_WEI" ParseBigInt with
  | some val => val.assertBigInt
  | none => .ok c.defaultSet.minGasPriceWei

/-- Embeds `EvmMaxGasPriceWei`: env (`ETH_MAX_GAS_PRICE_WEI`, big int), then
persisted override, then default set. -/
def EvmMaxGasPriceWei (env : RawEnv) (c : ChainScopedConfig) : Except GoPanic Int :=
  match lookupEnv env "ETH_MAX_GAS_PRICE_WEI" ParseBigInt with
  | some val => val.assertBigInt
  | none =>
    match c.persistedCfg.EvmMaxGasPriceWei with
    | some i => .ok i
    | none => .ok c.defaultSet.maxGasPriceWei

/-- Embeds `EvmGasPriceDefault`: env (`ETH_GAS_PRICE_DEFAULT`, big int), then
the persisted (runtime-settable) override, then default set. -/
def EvmGasPriceDefault (env : RawEnv) (c : ChainScopedConfig) : Except GoPanic Int :=
  match lookupEnv env "ETH_GAS_PRICE_DEFAULT" ParseBigInt with
  | some val => val.assertBigInt
  | none =>
    match c.persistedCfg.EvmGasPriceDefault with
    | some i => .ok i
    | none => .ok c.defaultSet.gasPriceDefault

/-- Embeds `EvmFinalityDepth`: env (`ETH_FINALITY_DEPTH`, parsed with
`config.ParseUint64`), then persisted override, then default set.  The
source asserts the parsed environment value with `val.(uint)` — not
`uint(val.(uint64))` as its sibling `EvmHeadTrackerMaxBufferSize` does — so
the environment branch is the Go type assertion of a `uint64` to `uint`. -/
def EvmFinalityDepth (env : RawEnv) (c : ChainScopedConfig) : Except GoPanic Nat :=
  match lookupEnv env "ETH_FINALITY_DEPTH" ParseUint64 with
  | some val => val.assertUint
  | none =>
    match c.persistedCfg.EvmFinalityDepth with
    | some i => .ok (uintN 64 i)
    | none => .ok c.defaultSet.finalityDepth

/-- Embeds `EvmHeadTrackerHistoryDepth`: env
(`ETH_HEAD_TRACKER_HISTORY_DEPTH`, parsed with `config.ParseUint64`), then
persisted override, then default set.  Same `val.(uint)` assertion as
`EvmFinalityDepth`. -/
def EvmHeadTrackerHistoryDepth (env : RawEnv) (c : ChainScopedConfig) :
    Except GoPanic Nat :=
  match lookupEnv env "ETH_HEAD_TRACKER_HISTORY_DEPTH" ParseUint64 with
  | some val => val.assertUint
  | none =>
    match c.persistedCfg.EvmHeadTrackerHistoryDepth with
    | some i => .ok (uintN 64 i)
    | none => .ok c.defaultSet.headTrackerHistoryDepth

/-- Embeds `GasEstimatorMode`: when the global Ethereum-disabled flag is on
the fixed value `"FixedPrice"` is returned before any other source is
consulted; otherwise env (`GAS_ESTIMATOR_MODE`, string), then persisted
override, then default set. -/
def GasEstimatorMode (env : RawEnv) (c : ChainScopedConfig) :
    Except GoPanic String :=
  if c.general.ethereumDisabled then .ok "FixedPrice"
  else
    match lookupEnv env "GAS_ESTIMATOR_MODE" ParseString with
    | some val => val.assertString
    | none =>
      match c.persistedCfg.GasEstimatorMode with
      | some s => .ok s
      | none => .ok c.defaultSet.gasEstimatorMode

/-- Embeds `BlockHistoryEstimatorBlockHistorySize`: env
(`BLOCK_HISTORY_ESTIMATOR_BLOCK_HISTORY_SIZE`, uint16), then persisted
override, then default set. -/
def BlockHistoryEstimatorBlockHistorySize (env : RawEnv) (c : ChainScopedConfig) :
    Except GoPanic Nat :=
  match lookupEnv env "BLOCK_HISTORY_ESTIMATOR_BLOCK_HISTORY_SIZE" ParseUint16 with
  | some val => val.assertUint16
  | none =>
    match c.persistedCfg.BlockHistoryEstimatorBlockHistorySize with
    | some i => .ok (uintN 16 i)
    | none => .ok c.defaultSet.blockHistoryEstimatorBlockHistorySize

/-- Embeds `MinIncomingConfirmations`: env (`MIN_INCOMING_CONFIRMATIONS`,
uint32), then default set (no persisted branch in the source). -/
def MinIncomingConfirmations (env : RawEnv) (c : ChainScopedConfig) :
    Except GoPanic Nat :=
  match lookupEnv env "MIN_INCOMING_CONFIRMATIONS" ParseUint32 with
  | some val => val.assertUint32
  | none => .ok c.defaultSet.minIncomingConfirmations

/-- Embeds `BalanceMonitorEnabled`: when the global Ethereum-disabled flag is
on, `false` is returned before any other source is consulted; otherwise env
(`BALANCE_MONITOR_ENABLED`, bool), then default set. -/
def BalanceMonitorEnabled (env : RawEnv) (c : ChainScopedConfig) :
    Except GoPanic Bool :=
  if c.general.ethereumDisabled then .ok false
  else
    match lookupEnv env "BALANCE_MONITOR_ENABLED" ParseBool with
    | some val => val.assertBool
    | none => .ok c.defaultSet.balanceMonitorEnabled

/-- Embeds `SetEvmGasPriceDefault`: validates the proposed value against the
resolved min/max gas prices; out of bounds gives a descriptive error and no
state change, otherwise the in-memory persisted override is set and the
result of the ORM store call is returned.  `storeErr` is the outcome of
`c.orm.store(...)` (the durable persistence collaborator, whose code is not
under `src/`; spec §4.1), `none` meaning a nil error. -/
def SetEvmGasPriceDefault (env : RawEnv) (storeErr : Option String)
    (c : ChainScopedConfig) (value : Int) :
    ChainScopedConfig × Except GoPanic (Option String) :=
  match EvmMinGasPriceWei env c with
  | .error p => (c, .error p)
  | .ok mn =>
    match EvmMaxGasPriceWei env c with
    | .error p => (c, .error p)
    | .ok mx =>
      if value < mn then
        (c, .ok (some ("cannot set default gas price to " ++ toString value ++
          ", it is below the minimum allowed value of " ++ toString mn)))
      else if mx < value then
        (c, .ok (some ("cannot set default gas price to " ++ toString value ++
          ", it is above the maximum allowed value of " ++ toString mx)))
      else
        ({ c with persistedCfg := { c.persistedCfg with EvmGasPriceDefault := some value } },
          .ok storeErr)

/-- Geth's default replacement-transaction price bump
(`core.DefaultTxPoolConfig.PriceBump` of go-ethereum): 10 percent. -/
def PriceBump : Nat := 10

/-- Embeds `chainScopedConfig.validate`: every invariant check is evaluated
(violations are accumulated with `multierr.Combine`, never short-circuited)
and the delegated OCR local-config sanity violations are appended.  Getters
are evaluated in the order of their first call in the source. -/
def validate (env : RawEnv) (c : ChainScopedConfig) :
    Except GoPanic (List String) := do
  let gbp ← EvmGasBumpPercent env c
  let gbtd ← EvmGasBumpTxDepth env c
  let mift ← EvmMaxInFlightTransactions env c
  let mn ← EvmMinGasPriceWei env c
  let d ← EvmGasPriceDefault env c
  let mx ← EvmMaxGasPriceWei env c
  let htd ← EvmHeadTrackerHistoryDepth env c
  let fd ← EvmFinalityDepth env c
  let mode ← GasEstimatorMode env c
  let bhs ← BlockHistoryEstimatorBlockHistorySize env c
  let mic ← MinIncomingConfirmations env c
  return (
    (if gbp < PriceBump then
      ["ETH_GAS_BUMP_PERCENT of " ++ toString gbp ++
        " may not be less than Geth default of " ++ toString PriceBump]
     else []) ++
    (if mift < gbtd then
      ["ETH_GAS_BUMP_TX_DEPTH must be less than or equal to ETH_MAX_IN_FLIGHT_TRANSACTIONS"]
     else []) ++
    (if d < mn then
      ["ETH_MIN_GAS_PRICE_WEI must be less than or equal to ETH_GAS_PRICE_DEFAULT"]
     else []) ++
    (if mx < d then
      ["ETH_MAX_GAS_PRICE_WEI must be greater than or equal to ETH_GAS_PRICE_DEFAULT"]
     else []) ++
    (if htd < fd then
      ["ETH_HEAD_TRACKER_HISTORY_DEPTH must be equal to or greater than ETH_FINALITY_DEPTH"]
     else []) ++
    (if mode == "BlockHistory" && bhs == 0 then
      ["GAS_UPDATER_BLOCK_HISTORY_SIZE must be greater than or equal to 1 if block history estimator is enabled"]
     else []) ++
    (if fd < 1 then
      ["ETH_FINALITY_DEPTH must be greater than or equal to 1"]
     else []) ++
    (if mic < 1 then
      ["MIN_INCOMING_CONFIRMATIONS must be greater than or equal to 1"]
     else []) ++
    c.ocrSanityErrors)

/-- Embeds `chainScopedConfig.Validate`:
`multierr.Combine(c.GeneralConfig.Validate(), c.validate())`, the general
config's violations followed by the chain-scoped ones. -/
def Validate (env : RawEnv) (c : ChainScopedConfig) :
    Except GoPanic (List String) := do
  let errs ← validate env c
  return c.general.validationErrors ++ errs

end EvmConfig

namespace EvmChains

/-- A built chain as the registry sees it: its identity and the current
outcomes of its delegating health checks.  `ready` is the result of the
chain's `Ready()` call (`none` meaning a nil error); the chain's clients and
services are external collaborators, so their aggregate `Ready()` outcome is
carried as data. -/
structure ChainRec where
  id : Int
  ready : Option String := none
deriving DecidableEq

/-- Embeds the `chainCollection` struct: the configured default chain id
(`*big.Int`, `none` embedding a nil pointer) and the `map[string]*chain`
index, as an association list keyed by the decimal string of the id. -/
structure ChainCollection where
  defaultID : Option Int
  chains : List (String × ChainRec)
deriving DecidableEq

/-- Go map read `m[k]`. -/
def lookupMap (m : List (String × ChainRec)) (k : String) : Option ChainRec :=
  match m.find? (fun p => p.1 == k) with
  | some p => some p.2
  | none => none

/-- Go map write `m[k] = v`: replaces the entry when the key is present,
appends it otherwise. -/
def mapInsert (m : List (String × ChainRec)) (k : String) (v : ChainRec) :
    List (String × ChainRec) :=
  if m.any (fun p => p.1 == k) then
    m.map (fun p => if p.1 == k then (k, v) else p)
  else m ++ [(k, v)]

/-- Outcome of `chainCollection.Get`: the source panics on a nil id, returns
a not-found error on a lookup miss, a wrapping not-ready error when the
chain's `Ready()` fails (carrying the underlying cause), and the chain
itself otherwise. -/
inductive GetResult
  | panicNilID
  | notFound (msg : String)
  | notReady (cause : String) (msg : String)
  | found (c : ChainRec)
deriving DecidableEq

/-- Embeds `chainCollection.Get`. -/
def Get (cll : ChainCollection) (id : Option Int) : GetResult :=
  match id with
  | none => .panicNilID
  | some i =>
    match lookupMap cll.chains (toString i) with
    | some c =>
      match c.ready with
      | some cause =>
        .notReady cause ("chain with ID " ++ toString i ++ " is not ready: " ++ cause)
      | none => .found c
    | none => .notFound ("chain not found with id " ++ toString i)

/-- Embeds `chainCollection.Default`: `Get` at the default id fixed at
construction. -/
def Default (cll : ChainCollection) : GetResult :=
  Get cll cll.defaultID

/-- Embeds `chainCollection.ChainCount`: the size of the index. -/
def ChainCount (cll : ChainCollection) : Nat :=
  cll.chains.length

/-- The chains among the per-record build outcomes that built successfully,
in order. -/
def okList (builds : List (Except String ChainRec)) : List ChainRec :=
  builds.filterMap (fun b => match b with | .ok c => some c | .error _ => none)

/-- The per-record build failures, in order. -/
def errList (builds : List (Except String ChainRec)) : List String :=
  builds.filterMap (fun b => match b with | .error e => some e | .ok _ => none)

/-- The loop body of `NewChainCollection`: a build failure is appended to
the combined error and the loop continues; a built chain is written into the
index under `chain.ID().String()`. -/
def buildChains (m : List (String × ChainRec)) (errs : List String) :
    List (Except String ChainRec) → List (String × ChainRec) × List String
  | [] => (m, errs)
  | .error e :: rest => buildChains m (errs ++ [e]) rest
  | .ok ch :: rest => buildChains (mapInsert m (toString ch.id) ch) errs rest

/-- Embeds `NewChainCollection`: the default id comes from the global
config; every record is built in turn and failures never abort the loop.
Each record's build outcome (`newChain`, whose body is not under `src/`) is
taken as input: modelled from the spec, chain construction either yields a
chain or fails with an error that is reported to the registry (spec §4.3). -/
def NewChainCollection (d : Option Int) (builds : List (Except String ChainRec)) :
    ChainCollection × List String :=
  match buildChains [] [] builds with
  | (m, errs) => ({ defaultID := d, chains := m }, errs)

/-- Embeds `LoadChainCollection`: when the global Ethereum-disabled flag is
set, the zero-valued collection (nil default id, empty index) is returned
with a nil error before anything is loaded; otherwise the records are built
via `NewChainCollection` (the database read, an external collaborator, is
elided — its records are the `builds` input). -/
def LoadChainCollection (ethereumDisabled : Bool) (d : Option Int)
    (builds : List (Except String ChainRec)) : ChainCollection × List String :=
  if ethereumDisabled then ({ defaultID := none, chains := [] }, [])
  else NewChainCollection d builds

end EvmChains

/-! Concrete inputs used to instantiate the theorems below. -/

/-- An empty process environment. -/
def env0 : EvmConfig.RawEnv := fun _ => none

/-- A default set with mainnet-like baseline values. -/
def defaultSetA : EvmConfig.DefaultSet :=
  { gasPriceDefault := 20000000000
    minGasPriceWei := 1000000000
    maxGasPriceWei := 5000000000000
    finalityDepth := 50
    headTrackerHistoryDepth := 100
    gasEstimatorMode := "BlockHistory"
    balanceMonitorEnabled := true
    gasBumpPercent := 20
    gasBumpTxDepth := 10
    maxInFlightTransactions := 16
    blockHistoryEstimatorBlockHistorySize := 8
    minIncomingConfirmations := 3 }

/-- A resolver for an enabled chain with no persisted overrides. -/
def cfgA : EvmConfig.ChainScopedConfig :=
  { general := { ethereumDisabled := false, defaultChainID := some 1, validationErrors := [] }
    persistedCfg := {}
    defaultSet := defaultSetA
    ocrSanityErrors := [] }

/-- An environment carrying a well-formed `ETH_FINALITY_DEPTH`. -/
def envFinality : EvmConfig.RawEnv := fun k =>
  if k == "ETH_FINALITY_DEPTH" then some "50" else none

/-- An environment carrying a well-formed `ETH_GAS_PRICE_DEFAULT`. -/
def envGasPrice : EvmConfig.RawEnv := fun k =>
  if k == "ETH_GAS_PRICE_DEFAULT" then some "7" else none

/-- An environment carrying a malformed `ETH_GAS_PRICE_DEFAULT`. -/
def envBad : EvmConfig.RawEnv := fun k =>
  if k == "ETH_GAS_PRICE_DEFAULT" then some "zzz" else none

/-- An environment that tries to override the estimator mode and the
balance monitor. -/
def envLoud : EvmConfig.RawEnv := fun k =>
  if k == "GAS_ESTIMATOR_MODE" then some "BlockHistory"
  else if k == "BALANCE_MONITOR_ENABLED" then some "true"
  else none

/-- A resolver whose general config has the Ethereum-disabled flag set. -/
def cfgDisabled : EvmConfig.ChainScopedConfig :=
  { general := { ethereumDisabled := true, defaultChainID := some 1, validationErrors := [] }
    persistedCfg := {}
    defaultSet := defaultSetA
    ocrSanityErrors := [] }

/-- A resolver whose resolved gas-price bounds are 1 and 100. -/
def cfgB : EvmConfig.ChainScopedConfig :=
  { general := { ethereumDisabled := false, defaultChainID := some 1, validationErrors := [] }
    persistedCfg := {}
    defaultSet := { defaultSetA with minGasPriceWei := 1, maxGasPriceWei := 100, gasPriceDefault := 10 }
    ocrSanityErrors := [] }

/-- A second resolver with gas-price bounds 1 and 100, for the
store-failure scenario. -/
def cfgC : EvmConfig.ChainScopedConfig :=
  { general := { ethereumDisabled := false, defaultChainID := some 1, validationErrors := [] }
    persistedCfg := {}
    defaultSet := { defaultSetA with minGasPriceWei := 1, maxGasPriceWei := 100, gasPriceDefault := 10 }
    ocrSanityErrors := [] }

/-- A resolver violating both the head-tracker-vs-finality invariant
(history depth 10 < finality depth 15) and the min-vs-default gas price
invariant (5 > 3), with a delegated OCR violation to merge. -/
def cfgD : EvmConfig.ChainScopedConfig :=
  { general := { ethereumDisabled := false, defaultChainID := some 1, validationErrors := ["general config violation"] }
    persistedCfg := {}
    defaultSet := { defaultSetA with headTrackerHistoryDepth := 10, finalityDepth := 15, minGasPriceWei := 5, gasPriceDefault := 3 }
    ocrSanityErrors := ["DataSourceTimeout must be positive"] }

/-- A registry holding the single ready chain 1. -/
def cllEx : EvmChains.ChainCollection :=
  { defaultID := some 1, chains := [("1", { id := 1, ready := none })] }

/-- Two build outcomes sharing chain id 0: both succeed. -/
def dupBuilds : List (Except String EvmChains.ChainRec) :=
  [.ok { id := 0, ready := none }, .ok { id := 0, ready := some "down" }]

/-- One failed build (malformed node URL) next to one successful build. -/
def mixedBuilds : List (Except String EvmChains.ChainRec) :=
  [.error "invalid node URL", .ok { id := 1, ready := none }]

/-! Helper lemmas. -/

namespace EvmConfig

/-- A `ParseUint16` environment lookup is absent or a `uint16` value. -/
theorem lookupEnv_parseUint16_shape (env : RawEnv) (k : String) :
    lookupEnv env k ParseUint16 = none ∨
    ∃ n, lookupEnv env k ParseUint16 = some (.vUint16 n) := by
  rcases h : env k with _ | s
  · exact Or.inl (by simp [lookupEnv, h])
  · rcases hn : parseDecNat s with _ | n
    · exact Or.inl (by simp [lookupEnv, ParseUint16, h, hn])
    · by_cases hlt : n < 65536
      · exact Or.inr ⟨n, by simp [lookupEnv, ParseUint16, h, hn, hlt]⟩
      · exact Or.inl (by simp [lookupEnv, ParseUint16, h, hn, hlt])

/-- A `ParseUint32` environment lookup is absent or a `uint32` value. -/
theorem lookupEnv_parseUint32_shape (env : RawEnv) (k : String) :
    lookupEnv env k ParseUint32 = none ∨
    ∃ n, lookupEnv env k ParseUint32 = some (.vUint32 n) := by
  rcases h : env k with _ | s
  · exact Or.inl (by simp [lookupEnv, h])
  · rcases hn : parseDecNat s with _ | n
    · exact Or.inl (by simp [lookupEnv, ParseUint32, h, hn])
    · by_cases hlt : n < 4294967296
      · exact Or.inr ⟨n, by simp [lookupEnv, ParseUint32, h, hn, hlt]⟩
      · exact Or.inl (by simp [lookupEnv, ParseUint32, h, hn, hlt])

/-- A `ParseBigInt` environment lookup is absent or a `*big.Int` value. -/
theorem lookupEnv_parseBigInt_shape (env : RawEnv) (k : String) :
    lookupEnv env k ParseBigInt = none ∨
    ∃ i, lookupEnv env k ParseBigInt = some (.vBigInt i) := by
  rcases h : env k with _ | s
  · exact Or.inl (by simp [lookupEnv, h])
  · rcases hn : parseDecInt s with _ | i
    · exact Or.inl (by simp [lookupEnv, ParseBigInt, h, hn])
    · exact Or.inr ⟨i, by simp [lookupEnv, ParseBigInt, h, hn]⟩

/-- A `ParseString` environment lookup is absent or a `string` value. -/
theorem lookupEnv_parseString_shape (env : RawEnv) (k : String) :
    lookupEnv env k ParseString = none ∨
    ∃ s, lookupEnv env k ParseString = some (.vString s) := by
  rcases h : env k with _ | s
  · exact Or.inl (by simp [lookupEnv, h])
  · exact Or.inr ⟨s, by simp [lookupEnv, ParseString, h]⟩

/-- `EvmGasBumpPercent` never panics. -/
theorem evmGasBumpPercent_ok (env : RawEnv) (c : ChainScopedConfig) :
    ∃ n, EvmGasBumpPercent env c = .ok n := by
  unfold EvmGasBumpPercent
  rcases lookupEnv_parseUint16_shape env "ETH_GAS_BUMP_PERCENT" with h | ⟨n, h⟩ <;> rw [h]
  · cases c.persistedCfg.EvmGasBumpPercent <;> exact ⟨_, rfl⟩
  · exact ⟨n, rfl⟩

/-- `EvmGasBumpTxDepth` never panics. -/
theorem evmGasBumpTxDepth_ok (env : RawEnv) (c : ChainScopedConfig) :
    ∃ n, EvmGasBumpTxDepth env c = .ok n := by
  unfold EvmGasBumpTxDepth
  rcases lookupEnv_parseUint16_shape env "ETH_GAS_BUMP_TX_DEPTH" with h | ⟨n, h⟩ <;> rw [h]
  · cases c.persistedCfg.EvmGasBumpTxDepth <;> exact ⟨_, rfl⟩
  · exact ⟨n, rfl⟩

/-- `EvmMaxInFlightTransactions` never panics. -/
theorem evmMaxInFlightTransactions_ok (env : RawEnv) (c : ChainScopedConfig) :
    ∃ n, EvmMaxInFlightTransactions env c = .ok n := by
  unfold EvmMaxInFlightTransactions
  rcases lookupEnv_parseUint32_shape env "ETH_MAX_IN_FLIGHT_TRANSACTIONS" with h | ⟨n, h⟩ <;>
    rw [h]
  · exact ⟨_, rfl⟩
  · exact ⟨n, rfl⟩

/-- `EvmMinGasPriceWei` never panics. -/
theorem evmMinGasPriceWei_ok (env : RawEnv) (c : ChainScopedConfig) :
    ∃ i, EvmMinGasPriceWei env c = .ok i := by
  unfold EvmMinGasPriceWei
  rcases lookupEnv_parseBigInt_shape env "ETH_MIN_GAS_PRICE_WEI" with h | ⟨i, h⟩ <;> rw [h]
  · exact ⟨_, rfl⟩
  · exact ⟨i, rfl⟩

/-- `EvmMaxGasPriceWei` never panics. -/
theorem evmMaxGasPriceWei_ok (env : RawEnv) (c : ChainScopedConfig) :
    ∃ i, EvmMaxGasPriceWei env c = .ok i := by
  unfold EvmMaxGasPriceWei
  rcases lookupEnv_parseBigInt_shape env "ETH_MAX_GAS_PRICE_WEI" with h | ⟨i, h⟩ <;> rw [h]
  · cases c.persistedCfg.EvmMaxGasPriceWei <;> exact ⟨_, rfl⟩
  · exact ⟨i, rfl⟩

/-- `EvmGasPriceDefault` never panics. -/
theorem evmGasPriceDefault_ok (env : RawEnv) (c : ChainScopedConfig) :
    ∃ i, EvmGasPriceDefault env c = .ok i := by
  unfold EvmGasPriceDefault
  rcases lookupEnv_parseBigInt_shape env "ETH_GAS_PRICE_DEFAULT" with h | ⟨i, h⟩ <;> rw [h]
  · cases c.persistedCfg.EvmGasPriceDefault <;> exact ⟨_, rfl⟩
  · exact ⟨i, rfl⟩

/-- `GasEstimatorMode` never panics. -/
theorem gasEstimatorMode_ok (env : RawEnv) (c : ChainScopedConfig) :
    ∃ s, GasEstimatorMode env c = .ok s := by
  unfold GasEstimatorMode
  by_cases hdis : c.general.ethereumDisabled
  · exact ⟨"FixedPrice", by simp [hdis]⟩
  · simp only [hdis, Bool.false_eq_true, if_false]
    rcases lookupEnv_parseString_shape env "GAS_ESTIMATOR_MODE" with h | ⟨s, h⟩ <;> rw [h]
    · cases c.persistedCfg.GasEstimatorMode <;> exact ⟨_, rfl⟩
    · exact ⟨s, rfl⟩

/-- `BlockHistoryEstimatorBlockHistorySize` never panics. -/
theorem blockHistorySize_ok (env : RawEnv) (c : ChainScopedConfig) :
    ∃ n, BlockHistoryEstimatorBlockHistorySize env c = .ok n := by
  unfold BlockHistoryEstimatorBlockHistorySize
  rcases lookupEnv_parseUint16_shape env "BLOCK_HISTORY_ESTIMATOR_BLOCK_HISTORY_SIZE" with
    h | ⟨n, h⟩ <;> rw [h]
  · cases c.persistedCfg.BlockHistoryEstimatorBlockHistorySize <;> exact ⟨_, rfl⟩
  · exact ⟨n, rfl⟩

/-- `MinIncomingConfirmations` never panics. -/
theorem minIncomingConfirmations_ok (env : RawEnv) (c : ChainScopedConfig) :
    ∃ n, MinIncomingConfirmations env c = .ok n := by
  unfold MinIncomingConfirmations
  rcases lookupEnv_parseUint32_shape env "MIN_INCOMING_CONFIRMATIONS" with h | ⟨n, h⟩ <;> rw [h]
  · exact ⟨_, rfl⟩
  · exact ⟨n, rfl⟩

end EvmConfig

/-! Claim theorems. -/

/-- C8: the chain-family classification predicates are pure functions of the
identity value: `IsArbitrum id` holds precisely at 42161 and 421611,
`IsOptimism id` precisely at 10 and 69, `IsL2` is their disjunction, and
every other identity (including 1) reports false for all families. -/
theorem chain_family_classification :
    (∀ id : Int,
      (EvmTypes.IsArbitrum id = true ↔ id = 42161 ∨ id = 421611) ∧
      (EvmTypes.IsOptimism id = true ↔ id = 10 ∨ id = 69) ∧
      EvmTypes.IsL2 id = (EvmTypes.IsOptimism id || EvmTypes.IsArbitrum id)) ∧
    (∀ id : Int, id ≠ 10 → id ≠ 69 → id ≠ 42161 → id ≠ 421611 →
      EvmTypes.IsArbitrum id = false ∧ EvmTypes.IsOptimism id = false ∧
      EvmTypes.IsL2 id = false) := by
  constructor
  · intro id
    refine ⟨?_, ?_, rfl⟩ <;> simp [EvmTypes.IsArbitrum, EvmTypes.IsOptimism]
  · intro id h10 h69 ha hb
    simp [EvmTypes.IsArbitrum, EvmTypes.IsOptimism, EvmTypes.IsL2, h10, h69, ha, hb]

/-- C8 witness: identity 1 (mainnet-like) is in no rollup family. -/
theorem chain_family_classification_witness :
    EvmTypes.IsArbitrum 1 = false ∧ EvmTypes.IsOptimism 1 = false ∧
    EvmTypes.IsL2 1 = false :=
  chain_family_classification.2 1 (by decide) (by decide) (by decide) (by decide)

/-- C6: `Get` on a nil identity panics rather than returning an error, and
on the empty registry produced when chain connectivity is globally disabled
— whose default identity is the nil zero value — `Default` therefore also
panics. -/
theorem get_nil_panics_and_disabled_default_panics :
    (∀ cll : EvmChains.ChainCollection, EvmChains.Get cll none = .panicNilID) ∧
    (∀ (d : Option Int) (builds : List (Except String EvmChains.ChainRec)),
      EvmChains.Default (EvmChains.LoadChainCollection true d builds).1 = .panicNilID) := by
  exact ⟨fun _ => rfl, fun _ _ => rfl⟩

/-- C5: for a non-nil identity, `Get` reports not-found when the index has
no entry, reports a not-ready error wrapping the readiness failure when the
entry's `Ready()` fails, and returns the chain with no error only when the
entry is present and ready. -/
theorem registry_get_lookup_cases (cll : EvmChains.ChainCollection) (i : Int) :
    (EvmChains.lookupMap cll.chains (toString i) = none →
      EvmChains.Get cll (some i) =
        .notFound ("chain not found with id " ++ toString i)) ∧
    (∀ ch cause, EvmChains.lookupMap cll.chains (toString i) = some ch →
      ch.ready = some cause →
      EvmChains.Get cll (some i) =
        .notReady cause ("chain with ID " ++ toString i ++ " is not ready: " ++ cause)) ∧
    (∀ ch, EvmChains.lookupMap cll.chains (toString i) = some ch → ch.ready = none →
      EvmChains.Get cll (some i) = .found ch) := by
  refine ⟨?_, ?_, ?_⟩
  · intro h; simp [EvmChains.Get, h]
  · intro ch cause h hr; simp [EvmChains.Get, h, hr]
  · intro ch h hr; simp [EvmChains.Get, h, hr]

/-- C5 witness: looking up the unregistered identity 2 in the registry that
holds only chain 1 yields the not-found error and no chain. -/
theorem registry_get_lookup_cases_witness :
    EvmChains.Get cllEx (some 2) =
      .notFound ("chain not found with id " ++ toString (2 : Int)) :=
  (registry_get_lookup_cases cllEx 2).1 (by decide)

/-- C7: with the global chain-connectivity-disabled flag set,
`GasEstimatorMode` resolves to the fixed value "FixedPrice" and
`BalanceMonitorEnabled` to false, for every environment, persisted override
and default set — the disabled check precedes the resolution chain. -/
theorem disabled_flag_short_circuits_estimator_and_balance_monitor
    (env : EvmConfig.RawEnv) (c : EvmConfig.ChainScopedConfig)
    (h : c.general.ethereumDisabled = true) :
    EvmConfig.GasEstimatorMode env c = .ok "FixedPrice" ∧
    EvmConfig.BalanceMonitorEnabled env c = .ok false := by
  constructor <;>
    simp [EvmConfig.GasEstimatorMode, EvmConfig.BalanceMonitorEnabled, h]

/-- C7 witness: even with environment overrides for both parameters present,
the disabled config resolves the fixed safe values. -/
theorem disabled_flag_short_circuits_witness :
    EvmConfig.GasEstimatorMode envLoud cfgDisabled = .ok "FixedPrice" ∧
    EvmConfig.BalanceMonitorEnabled envLoud cfgDisabled = .ok false :=
  disabled_flag_short_circuits_estimator_and_balance_monitor envLoud cfgDisabled rfl

/-- C1: with a well-formed `ETH_FINALITY_DEPTH` in the environment,
`lookupEnv` reports a successfully parsed value of Go dynamic type `uint64`,
yet `EvmFinalityDepth` panics on the `val.(uint)` type assertion instead of
returning the environment value 50 — while a getter with a matching
assertion, `EvmGasPriceDefault`, does return its parsed environment
value. -/
theorem evmFinalityDepth_env_override_panics :
    EvmConfig.lookupEnv envFinality "ETH_FINALITY_DEPTH" EvmConfig.ParseUint64 =
      some (EvmConfig.GoVal.vUint64 50) ∧
    EvmConfig.EvmFinalityDepth envFinality cfgA =
      .error (EvmConfig.GoPanic.typeAssertion "uint" "uint64") ∧
    EvmConfig.EvmGasPriceDefault envGasPrice cfgA = .ok 7 := by
  refine ⟨?_, ?_, ?_⟩ <;> rfl

/-- C9: a present but malformed environment value is treated exactly as if
the variable were absent: `lookupEnv` reports no value, agrees with the
lookup on the environment with the variable erased, and (for example)
`EvmGasPriceDefault` resolution falls through to the next precedence layers
unchanged. -/
theorem malformed_env_value_treated_as_absent
    (env : EvmConfig.RawEnv) (k s e : String)
    (p : String → Except String EvmConfig.GoVal)
    (hk : env k = some s) (hbad : p s = .error e) :
    EvmConfig.lookupEnv env k p = none ∧
    EvmConfig.lookupEnv env k p = EvmConfig.lookupEnv (EvmConfig.eraseEnv env k) k p ∧
    (∀ (c : EvmConfig.ChainScopedConfig) (s2 e2 : String),
      env "ETH_GAS_PRICE_DEFAULT" = some s2 →
      EvmConfig.ParseBigInt s2 = .error e2 →
      EvmConfig.EvmGasPriceDefault env c =
        EvmConfig.EvmGasPriceDefault
          (EvmConfig.eraseEnv env "ETH_GAS_PRICE_DEFAULT") c) := by
  refine ⟨?_, ?_, ?_⟩
  · simp [EvmConfig.lookupEnv, hk, hbad]
  · simp [EvmConfig.lookupEnv, EvmConfig.eraseEnv, hk, hbad]
  · intro c s2 e2 h2 hb2
    simp [EvmConfig.EvmGasPriceDefault, EvmConfig.lookupEnv, EvmConfig.eraseEnv, h2, hb2]

/-- C9 witness: the malformed value "zzz" for `ETH_GAS_PRICE_DEFAULT` makes
the lookup report no value. -/
theorem malformed_env_value_witness :
    EvmConfig.lookupEnv envBad "ETH_GAS_PRICE_DEFAULT" EvmConfig.ParseBigInt = none :=
  (malformed_env_value_treated_as_absent envBad "ETH_GAS_PRICE_DEFAULT" "zzz"
    "invalid syntax" EvmConfig.ParseBigInt rfl rfl).1

/-- C3: `SetEvmGasPriceDefault` with a value strictly below the resolved
minimum or strictly above the resolved maximum returns a descriptive
out-of-bounds error and leaves the configuration unchanged; with an
in-bounds value it overwrites the stored default, and (absent an
environment override for the parameter) a subsequent `EvmGasPriceDefault`
read returns exactly that value. -/
theorem setEvmGasPriceDefault_bounds_and_update
    (env : EvmConfig.RawEnv) (c : EvmConfig.ChainScopedConfig)
    (storeErr : Option String) (v mn mx : Int)
    (hmn : EvmConfig.EvmMinGasPriceWei env c = .ok mn)
    (hmx : EvmConfig.EvmMaxGasPriceWei env c = .ok mx)
    (henv : EvmConfig.lookupEnv env "ETH_GAS_PRICE_DEFAULT" EvmConfig.ParseBigInt = none) :
    ((v < mn ∨ mx < v) →
      (EvmConfig.SetEvmGasPriceDefault env storeErr c v).1 = c ∧
      ∃ msg, (EvmConfig.SetEvmGasPriceDefault env storeErr c v).2 = .ok (some msg)) ∧
    (mn ≤ v → v ≤ mx →
      ((EvmConfig.SetEvmGasPriceDefault env storeErr c v).1).persistedCfg.EvmGasPriceDefault
          = some v ∧
      EvmConfig.EvmGasPriceDefault env
          (EvmConfig.SetEvmGasPriceDefault env storeErr c v).1 = .ok v) := by
  constructor
  · intro hout
    by_cases h1 : v < mn
    · constructor
      · simp [EvmConfig.SetEvmGasPriceDefault, hmn, hmx, h1]
      · exact ⟨"cannot set default gas price to " ++ toString v ++
          ", it is below the minimum allowed value of " ++ toString mn,
          by simp [EvmConfig.SetEvmGasPriceDefault, hmn, hmx, h1]⟩
    · have h2 : mx < v := hout.resolve_left h1
      constructor
      · simp [EvmConfig.SetEvmGasPriceDefault, hmn, hmx, h1, h2]
      · exact ⟨"cannot set default gas price to " ++ toString v ++
          ", it is above the maximum allowed value of " ++ toString mx,
          by simp [EvmConfig.SetEvmGasPriceDefault, hmn, hmx, h1, h2]⟩
  · intro hlo hhi
    have h1 : ¬v < mn := not_lt.mpr hlo
    have h2 : ¬mx < v := not_lt.mpr hhi
    constructor
    · simp [EvmConfig.SetEvmGasPriceDefault, hmn, hmx, h1, h2]
    · simp [EvmConfig.SetEvmGasPriceDefault, hmn, hmx, h1, h2,
        EvmConfig.EvmGasPriceDefault, henv]

/-- C3 witness: against bounds 1 and 100, setting 50 is accepted and read
back exactly, while setting 200 is rejected with no state change. -/
theorem setEvmGasPriceDefault_bounds_witness :
    EvmConfig.EvmGasPriceDefault env0
        (EvmConfig.SetEvmGasPriceDefault env0 none cfgB 50).1 = .ok 50 ∧
    (EvmConfig.SetEvmGasPriceDefault env0 none cfgB 200).1 = cfgB :=
  ⟨((setEvmGasPriceDefault_bounds_and_update env0 cfgB none 50 1 100 rfl rfl rfl).2
      (by decide) (by decide)).2,
   ((setEvmGasPriceDefault_bounds_and_update env0 cfgB none 200 1 100 rfl rfl rfl).1
      (Or.inr (by decide))).1⟩

/-- C10: when an in-bounds `SetEvmGasPriceDefault` call's persistence store
fails, the call returns exactly the store error, yet the in-memory default
has already been overwritten — there is no rollback — so a subsequent read
(absent an environment override) returns the new value despite the reported
failure. -/
theorem setEvmGasPriceDefault_store_failure_no_rollback
    (env : EvmConfig.RawEnv) (c : EvmConfig.ChainScopedConfig)
    (e : String) (v mn mx : Int)
    (hmn : EvmConfig.EvmMinGasPriceWei env c = .ok mn)
    (hmx : EvmConfig.EvmMaxGasPriceWei env c = .ok mx)
    (hlo : mn ≤ v) (hhi : v ≤ mx)
    (henv : EvmConfig.lookupEnv env "ETH_GAS_PRICE_DEFAULT" EvmConfig.ParseBigInt = none) :
    (EvmConfig.SetEvmGasPriceDefault env (some e) c v).2 = .ok (some e) ∧
    ((EvmConfig.SetEvmGasPriceDefault env (some e) c v).1).persistedCfg.EvmGasPriceDefault
        = some v ∧
    EvmConfig.EvmGasPriceDefault env
        (EvmConfig.SetEvmGasPriceDefault env (some e) c v).1 = .ok v := by
  have h1 : ¬v < mn := not_lt.mpr hlo
  have h2 : ¬mx < v := not_lt.mpr hhi
  refine ⟨?_, ?_, ?_⟩
  · simp [EvmConfig.SetEvmGasPriceDefault, hmn, hmx, h1, h2]
  · simp [EvmConfig.SetEvmGasPriceDefault, hmn, hmx, h1, h2]
  · simp [EvmConfig.SetEvmGasPriceDefault, hmn, hmx, h1, h2,
      EvmConfig.EvmGasPriceDefault, henv]

/-- C10 witness: setting 50 against bounds 1 and 100 with a failing store
returns the store error while the subsequent read yields 50. -/
theorem setEvmGasPriceDefault_store_failure_witness :
    (EvmConfig.SetEvmGasPriceDefault env0 (some "store failed") cfgC 50).2 =
      .ok (some "store failed") ∧
    EvmConfig.EvmGasPriceDefault env0
        (EvmConfig.SetEvmGasPriceDefault env0 (some "store failed") cfgC 50).1 = .ok 50 :=
  ⟨(setEvmGasPriceDefault_store_failure_no_rollback env0 cfgC "store failed" 50 1 100
      rfl rfl (by decide) (by decide) rfl).1,
   (setEvmGasPriceDefault_store_failure_no_rollback env0 cfgC "store failed" 50 1 100
      rfl rfl (by decide) (by decide) rfl).2.2⟩

/-- C2: `Validate` evaluates every invariant check, merging the general
config's and the delegated OCR sanity check's violations into one combined
error; with head-tracker history depth 10, finality depth 15 and a minimum
gas price above the default, the combined error names both of those
violations (and still carries every delegated OCR violation). -/
theorem validate_collects_all_violations
    (env : EvmConfig.RawEnv) (c : EvmConfig.ChainScopedConfig) (mn d : Int)
    (hhtd : EvmConfig.EvmHeadTrackerHistoryDepth env c = .ok 10)
    (hfd : EvmConfig.EvmFinalityDepth env c = .ok 15)
    (hmn : EvmConfig.EvmMinGasPriceWei env c = .ok mn)
    (hd : EvmConfig.EvmGasPriceDefault env c = .ok d)
    (hlt : d < mn) :
    ∃ msgs, EvmConfig.Validate env c = .ok msgs ∧
      "ETH_HEAD_TRACKER_HISTORY_DEPTH must be equal to or greater than ETH_FINALITY_DEPTH"
        ∈ msgs ∧
      "ETH_MIN_GAS_PRICE_WEI must be less than or equal to ETH_GAS_PRICE_DEFAULT" ∈ msgs ∧
      (∀ m ∈ c.ocrSanityErrors, m ∈ msgs) ∧
      (∀ m ∈ c.general.validationErrors, m ∈ msgs) := by
  obtain ⟨gbp, h1⟩ := EvmConfig.evmGasBumpPercent_ok env c
  obtain ⟨gbtd, h2⟩ := EvmConfig.evmGasBumpTxDepth_ok env c
  obtain ⟨mift, h3⟩ := EvmConfig.evmMaxInFlightTransactions_ok env c
  obtain ⟨mx, h4⟩ := EvmConfig.evmMaxGasPriceWei_ok env c
  obtain ⟨mode, h5⟩ := EvmConfig.gasEstimatorMode_ok env c
  obtain ⟨bhs, h6⟩ := EvmConfig.blockHistorySize_ok env c
  obtain ⟨mic, h7⟩ := EvmConfig.minIncomingConfirmations_ok env c
  have hval : EvmConfig.validate env c = .ok
      ((if gbp < EvmConfig.PriceBump then
        ["ETH_GAS_BUMP_PERCENT of " ++ toString gbp ++
          " may not be less than Geth default of " ++ toString EvmConfig.PriceBump]
       else []) ++
      (if mift < gbtd then
        ["ETH_GAS_BUMP_TX_DEPTH must be less than or equal to ETH_MAX_IN_FLIGHT_TRANSACTIONS"]
       else []) ++
      (if d < mn then
        ["ETH_MIN_GAS_PRICE_WEI must be less than or equal to ETH_GAS_PRICE_DEFAULT"]
       else []) ++
      (if mx < d then
        ["ETH_MAX_GAS_PRICE_WEI must be greater than or equal to ETH_GAS_PRICE_DEFAULT"]
       else []) ++
      (if (10 : Nat) < 15 then
        ["ETH_HEAD_TRACKER_HISTORY_DEPTH must be equal to or greater than ETH_FINALITY_DEPTH"]
       else []) ++
      (if mode == "BlockHistory" && bhs == 0 then
        ["GAS_UPDATER_BLOCK_HISTORY_SIZE must be greater than or equal to 1 if block history estimator is enabled"]
       else []) ++
      (if (15 : Nat) < 1 then
        ["ETH_FINALITY_DEPTH must be greater than or equal to 1"]
       else []) ++
      (if mic < 1 then
        ["MIN_INCOMING_CONFIRMATIONS must be greater than or equal to 1"]
       else []) ++
      c.ocrSanityErrors) := by
    simp only [EvmConfig.validate, h1, h2, h3, hmn, hd, h4, hhtd, hfd, h5, h6, h7,
      bind, Except.bind, pure, Except.pure]
  have hVal : EvmConfig.Validate env c = .ok (c.general.validationErrors ++
      ((if gbp < EvmConfig.PriceBump then
        ["ETH_GAS_BUMP_PERCENT of " ++ toString gbp ++
          " may not be less than Geth default of " ++ toString EvmConfig.PriceBump]
       else []) ++
      (if mift < gbtd then
        ["ETH_GAS_BUMP_TX_DEPTH must be less than or equal to ETH_MAX_IN_FLIGHT_TRANSACTIONS"]
       else []) ++
      (if d < mn then
        ["ETH_MIN_GAS_PRICE_WEI must be less than or equal to ETH_GAS_PRICE_DEFAULT"]
       else []) ++
      (if mx < d then
        ["ETH_MAX_GAS_PRICE_WEI must be greater than or equal to ETH_GAS_PRICE_DEFAULT"]
       else []) ++
      (if (10 : Nat) < 15 then
        ["ETH_HEAD_TRACKER_HISTORY_DEPTH must be equal to or greater than ETH_FINALITY_DEPTH"]
       else []) ++
      (if mode == "BlockHistory" && bhs == 0 then
        ["GAS_UPDATER_BLOCK_HISTORY_SIZE must be greater than or equal to 1 if block history estimator is enabled"]
       else []) ++
      (if (15 : Nat) < 1 then
        ["ETH_FINALITY_DEPTH must be greater than or equal to 1"]
       else []) ++
      (if mic < 1 then
        ["MIN_INCOMING_CONFIRMATIONS must be greater than or equal to 1"]
       else []) ++
      c.ocrSanityErrors)) := by
    simp only [EvmConfig.Validate, hval, bind, Except.bind, pure, Except.pure]
  refine ⟨_, hVal, ?_, ?_, ?_, ?_⟩
  · simp [List.mem_append]
  · simp [List.mem_append, hlt]
  · intro m hm; simp [List.mem_append, hm]
  · intro m hm; simp [List.mem_append, hm]

/-- C2 witness: the resolver with history depth 10, finality depth 15 and
minimum gas price 5 above default 3 yields a combined error naming both
violations and carrying the delegated OCR violation. -/
theorem validate_collects_all_violations_witness :
    ∃ msgs, EvmConfig.Validate env0 cfgD = .ok msgs ∧
      "ETH_HEAD_TRACKER_HISTORY_DEPTH must be equal to or greater than ETH_FINALITY_DEPTH"
        ∈ msgs ∧
      "ETH_MIN_GAS_PRICE_WEI must be less than or equal to ETH_GAS_PRICE_DEFAULT" ∈ msgs ∧
      (∀ m ∈ cfgD.ocrSanityErrors, m ∈ msgs) ∧
      (∀ m ∈ cfgD.general.validationErrors, m ∈ msgs) :=
  validate_collects_all_violations env0 cfgD 5 3 rfl rfl rfl rfl (by decide)

namespace EvmChains

/-- Inserting under a key absent from the map appends the binding. -/
theorem mapInsert_fresh (m : List (String × ChainRec)) (k : String) (v : ChainRec)
    (h : ∀ p ∈ m, p.1 ≠ k) : mapInsert m k v = m ++ [(k, v)] := by
  unfold mapInsert
  have hany : m.any (fun p => p.1 == k) = false := by
    rw [List.any_eq_false]
    intro p hp
    simpa using h p hp
  rw [hany]
  simp

/-- The keys written by successful builds, in order. -/
def okKeys (builds : List (Except String ChainRec)) : List String :=
  (okList builds).map (fun ch => toString ch.id)

/-- The registry-construction loop, run from any accumulator whose keys are
disjoint from the (pairwise distinct) keys of the remaining successful
builds, appends exactly the successful chains to the index and exactly the
failures to the combined error. -/
theorem buildChains_spec (builds : List (Except String ChainRec)) :
    ∀ (m : List (String × ChainRec)) (errs : List String),
    (∀ k ∈ okKeys builds, ∀ p ∈ m, p.1 ≠ k) →
    (okKeys builds).Nodup →
    buildChains m errs builds =
      (m ++ (okList builds).map (fun ch => (toString ch.id, ch)),
       errs ++ errList builds) := by
  induction builds with
  | nil =>
    intro m errs _ _
    simp [buildChains, okList, errList]
  | cons b rest ih =>
    intro m errs hfresh hnd
    cases b with
    | error e =>
      have hok : okKeys (.error e :: rest) = okKeys rest := by
        simp [okKeys, okList]
      rw [buildChains, ih m (errs ++ [e]) (by rw [hok] at hfresh; exact hfresh)
        (by rw [hok] at hnd; exact hnd)]
      simp [okList, errList]
    | ok ch =>
      have hkeys : okKeys (.ok ch :: rest) = toString ch.id :: okKeys rest := by
        simp [okKeys, okList]
      rw [hkeys] at hfresh hnd
      have hins : mapInsert m (toString ch.id) ch = m ++ [(toString ch.id, ch)] :=
        mapInsert_fresh m (toString ch.id) ch
          (hfresh (toString ch.id) (List.mem_cons_self _ _))
      have hfresh2 : ∀ k ∈ okKeys rest, ∀ p ∈ m ++ [(toString ch.id, ch)], p.1 ≠ k := by
        intro k hk p hp
        rcases List.mem_append.mp hp with hm | hone
        · exact hfresh k (List.mem_cons_of_mem _ hk) p hm
        · rcases List.mem_singleton.mp hone with rfl
          intro hcontra
          have hc2 : toString ch.id = k := hcontra
          exact (List.nodup_cons.mp hnd).1 (by rw [hc2]; exact hk)
      rw [buildChains, hins, ih (m ++ [(toString ch.id, ch)]) errs hfresh2
        (List.nodup_cons.mp hnd).2]
      simp [okList, errList]

/-- A build list has no failures exactly when its failure list is empty. -/
theorem errList_eq_nil_iff (builds : List (Except String ChainRec)) :
    errList builds = [] ↔ ∀ e, Except.error e ∉ builds := by
  induction builds with
  | nil => simp [errList]
  | cons b rest ih =>
    cases b with
    | error e =>
      have hcons : errList (.error e :: rest) = e :: errList rest := by
        simp [errList]
      rw [hcons]
      constructor
      · intro h
        exact absurd h (List.cons_ne_nil _ _)
      · intro h
        exact absurd (List.mem_cons_self _ _) (h e)
    | ok ch =>
      rw [errList] at ih ⊢
      simp only [List.filterMap_cons]
      constructor
      · intro h e hmem
        rcases List.mem_cons.mp hmem with hh | ht
        · exact absurd hh (by simp)
        · exact (ih.mp h) e ht
      · intro h
        exact ih.mpr (fun e ht => h e (List.mem_cons_of_mem _ ht))

end EvmChains

/-- C4 counterexample: two chain records that both build successfully but
share identity 0.  The second overwrites the first in the index, so the
registry holds one chain while two built successfully — `ChainCount` is 1,
not 2, and the combined error is nil — refuting the claim for arbitrary
record lists. -/
theorem newChainCollection_duplicate_id_counterexample :
    (EvmChains.okList dupBuilds).length = 2 ∧
    EvmChains.ChainCount (EvmChains.NewChainCollection none dupBuilds).1 = 1 ∧
    EvmChains.ChainCount (EvmChains.NewChainCollection none dupBuilds).1 ≠
      (EvmChains.okList dupBuilds).length ∧
    EvmChains.lookupMap (EvmChains.NewChainCollection none dupBuilds).1.chains
      (toString (0 : Int)) = some { id := 0, ready := some "down" } ∧
    (EvmChains.NewChainCollection none dupBuilds).2 = [] := by
  refine ⟨rfl, rfl, by decide, rfl, rfl⟩

/-- C4 (amended): for every list of chain records whose successfully built
chains have pairwise-distinct identities — which the persistence layer's
primary key guarantees — each build failure is collected into the combined
error without aborting the remaining chains: the registry index holds
exactly the successful chains, `ChainCount` equals their number, and the
combined error is nil exactly when no record failed to build. -/
theorem newChainCollection_partial_failure (d : Option Int)
    (builds : List (Except String EvmChains.ChainRec))
    (hnd : (EvmChains.okKeys builds).Nodup) :
    (EvmChains.NewChainCollection d builds).1.chains =
      (EvmChains.okList builds).map (fun ch => (toString ch.id, ch)) ∧
    EvmChains.ChainCount (EvmChains.NewChainCollection d builds).1 =
      (EvmChains.okList builds).length ∧
    (EvmChains.NewChainCollection d builds).2 = EvmChains.errList builds ∧
    ((EvmChains.NewChainCollection d builds).2 = [] ↔
      ∀ e, Except.error e ∉ builds) := by
  have hspec := EvmChains.buildChains_spec builds [] []
    (fun k _ p hp => absurd hp (List.not_mem_nil p)) hnd
  have hnew : EvmChains.NewChainCollection d builds =
      ({ defaultID := d,
         chains := (EvmChains.okList builds).map (fun ch => (toString ch.id, ch)) },
       EvmChains.errList builds) := by
    unfold EvmChains.NewChainCollection
    rw [hspec]
    simp
  refine ⟨by rw [hnew], ?_, by rw [hnew], ?_⟩
  · rw [hnew]
    simp [EvmChains.ChainCount]
  · rw [hnew]
    exact EvmChains.errList_eq_nil_iff builds

/-- C4 witness: of two records, one with a malformed node URL, the registry
holds exactly the one valid chain and the combined error is the non-nil
aggregate of the single failure. -/
theorem newChainCollection_partial_failure_witness :
    EvmChains.ChainCount (EvmChains.NewChainCollection none mixedBuilds).1 =
      (EvmChains.okList mixedBuilds).length ∧
    (EvmChains.NewChainCollection none mixedBuilds).2 = EvmChains.errList mixedBuilds :=
  ⟨(newChainCollection_partial_failure none mixedBuilds (by decide)).2.1,
   (newChainCollection_partial_failure none mixedBuilds (by decide)).2.2.1⟩
